import Mathlib

/-!
# medicoreapp-api: the user CRUD pipeline

A shallow embedding of the three layers of the user resource

* `internal/auth/handler/user_handler.go`  (transport: gin handlers),
* `internal/auth/service/user_service.go`  (business rules),
* `internal/user/repositories/user_repository.go` (persistence through gorm),

together with the entity of `internal/auth/model/user.go`.

Go functions that return `(T, error)` become state-passing functions
`σ → Except GoError T × σ`, where `σ` is the state of the world the call can touch
(the database, the random source).  A Go method that receives a `*User` and returns
only an `error` may write through the pointer, so it returns the entity as it leaves
it together with the optional error.  Go `uint` and `time.Time` values are natural
numbers; the only width that matters (`ParseUint(_, 10, 32)`) is explicit.
-/

namespace Medicore

/-! ## Go errors -/

/-- Go error values that can travel through the pipeline.  The three named
constructors are the sentinels `service.ErrEmailExists`, `gorm.ErrRecordNotFound`
and `bcrypt.ErrPasswordTooLong`; `other` is any other leaf error (a driver error,
an I/O error); `wrap` is an error that wraps another one (`Unwrap`). -/
inductive GoError where
  | ErrEmailExists
  | ErrRecordNotFound
  | ErrPasswordTooLong
  | other (msg : String)
  | wrap (msg : String) (inner : GoError)
  deriving DecidableEq, Repr

/-- Go `errors.Is(err, target)`: `err` or an error in its `Unwrap` chain equals `target`. -/
def errorsIs (err target : GoError) : Bool :=
  if err = target then true
  else
    match err with
    | .wrap _ inner => errorsIs inner target
    | _ => false

deriving instance DecidableEq for Except

/-- A Go call returning `(T, error)` in a world of type `σ`. -/
abbrev Op (σ α : Type) := σ → Except GoError α × σ

/-- A Go call that takes a pointer to `α` and returns `error`: the pointee after the
call, and the error if there is one. -/
abbrev PtrOp (σ α : Type) := σ → (α × Option GoError) × σ

/-- A Go call returning only `error`. -/
abbrev ErrOp (σ : Type) := σ → Option GoError × σ

/-! ## Entity (`internal/auth/model/user.go`) -/

/-- Go `time.Time`, as a count of clock ticks; `0` is the zero time. -/
abbrev Time := Nat

namespace gorm

/-- The embedded `gorm.Model`: primary key, the two tracked timestamps and the
soft-delete mark (`gorm.DeletedAt`, a nullable time). -/
structure Model where
  ID : Nat
  CreatedAt : Time
  UpdatedAt : Time
  DeletedAt : Option Time
  deriving DecidableEq, Repr

end gorm

namespace model

/-- The `User` struct: `gorm.Model` embedded, then `Name`, `Email`, `Password`. -/
structure User where
  Model : gorm.Model
  Name : String
  Email : String
  Password : String
  deriving DecidableEq, Repr

end model

open model (User)

/-! ## JSON responses -/

/-- A scalar JSON value as it occurs in the responses of this API. -/
inductive JVal where
  | null
  | num (n : Nat)
  | str (s : String)
  | time (t : Time)
  deriving DecidableEq, Repr

/-- A JSON object: its members in order. -/
abbrev JObj := List (String × JVal)

/-- A response body: one object (`gin.H` or a user) or an array of objects. -/
inductive Body where
  | obj (o : JObj)
  | arr (os : List JObj)
  deriving DecidableEq, Repr

/-- Member for `gorm.DeletedAt`, which marshals as `null` when not set. -/
def marshalDeletedAt : Option Time → JVal
  | none => .null
  | some t => .time t

/-- The `encoding/json` image of a `User`: the promoted fields of the embedded
`gorm.Model` under their Go names, `Name` and `Email` under their `json` tags, and
`Password` skipped because of its tag `json:"-"`. -/
def marshalUser (u : User) : JObj :=
  [("ID", .num u.Model.ID),
   ("CreatedAt", .time u.Model.CreatedAt),
   ("UpdatedAt", .time u.Model.UpdatedAt),
   ("DeletedAt", marshalDeletedAt u.Model.DeletedAt),
   ("name", .str u.Name),
   ("email", .str u.Email)]

/-- The pair `c.JSON(status, body)` writes. -/
structure Response where
  status : Nat
  body : Body
  deriving DecidableEq, Repr

/-- The body `gin.H{"error": msg}`. -/
def errorBody (msg : String) : Body := .obj [("error", .str msg)]

/-- The body `gin.H{"message": msg}`. -/
def messageBody (msg : String) : Body := .obj [("message", .str msg)]

/-- Names of the members of a body (of every element, for an array). -/
def Body.keys : Body → List String
  | .obj o => o.map Prod.fst
  | .arr os => (os.map (fun o => o.map Prod.fst)).flatten

def StatusOK : Nat := 200
def StatusCreated : Nat := 201
def StatusBadRequest : Nat := 400
def StatusNotFound : Nat := 404
def StatusConflict : Nat := 409
def StatusInternalServerError : Nat := 500

/-! ## `strconv.ParseUint` -/

namespace strconv

/-- The two failures of `ParseUint`: `ErrSyntax` and `ErrRange`. -/
inductive NumError where
  | ErrSyntax
  | ErrRange
  deriving DecidableEq, Repr

def maxUint64 : Nat := 2 ^ 64 - 1

/-- Go `lower(c)`, that is `c | ('x' - 'X')`, on the code of an ASCII letter. -/
def lower (c : Char) : Nat := if 'A' ≤ c ∧ c ≤ 'Z' then c.toNat + 32 else c.toNat

/-- The `switch` of the digit loop for a base in `2..36` (so no underscores): the
value of a decimal digit or of a letter, or nothing for any other byte.  Bytes of a
non-ASCII character are all above `'z'`, so stepping by character gives the result of
stepping by byte. -/
def digitVal (c : Char) : Option Nat :=
  if '0' ≤ c ∧ c ≤ '9' then some (c.toNat - '0'.toNat)
  else if c.toNat < 128 ∧ 'a'.toNat ≤ lower c ∧ lower c ≤ 'z'.toNat then
    some (lower c - 'a'.toNat + 10)
  else none

/-- The digit loop of `ParseUint`: `n` is the `uint64` accumulator.  A byte that is
no digit or a digit not below the base is a syntax error; `n >= cutoff`, a wrapped
addition or a value above `maxVal` is a range error. -/
def parseLoop (base cutoff maxVal : Nat) : List Char → Nat → Except NumError Nat
  | [], n => .ok n
  | c :: cs, n =>
    match digitVal c with
    | none => .error .ErrSyntax
    | some d =>
      if d ≥ base then .error .ErrSyntax
      else if n ≥ cutoff then .error .ErrRange
      else
        let n0 := (n * base) % 2 ^ 64
        let n1 := (n0 + d) % 2 ^ 64
        if n1 < n0 ∨ n1 > maxVal then .error .ErrRange
        else parseLoop base cutoff maxVal cs n1

/-- The call `strconv.ParseUint(s, base, bitSize)` for `2 ≤ base ≤ 36` and
`1 ≤ bitSize ≤ 64`, the only way the handlers call it (`base = 10`, `bitSize = 32`). -/
def ParseUint (s : String) (base bitSize : Nat) : Except NumError Nat :=
  if s = "" then .error .ErrSyntax
  else parseLoop base (maxUint64 / base + 1) (2 ^ bitSize - 1) s.toList 0

end strconv

/-! ## `bcrypt.GenerateFromPassword` -/

namespace bcrypt

def MinCost : Nat := 4
def MaxCost : Nat := 31
def DefaultCost : Nat := 10

/-- The part of bcrypt that is not decided by the length and cost checks: drawing
the random salt (which reads the random source of the world and can fail) and the
expensive key schedule, for a password and an accepted cost. -/
structure Backend (σ : Type) where
  hash : String → Nat → Op σ String

/-- The call `bcrypt.GenerateFromPassword(password, cost)`: a password longer than 72
bytes is refused with `ErrPasswordTooLong`; a cost below `MinCost` is replaced by
`DefaultCost`; a cost above `MaxCost` is refused; otherwise the salt is drawn and the
hash computed. -/
def GenerateFromPassword {σ : Type} (bc : Backend σ) (password : String) (cost : Nat) :
    Op σ String := fun s =>
  if password.utf8ByteSize > 72 then (.error .ErrPasswordTooLong, s)
  else
    let cost := if cost < MinCost then DefaultCost else cost
    if cost > MaxCost then (.error (.other "crypto/bcrypt: invalid cost"), s)
    else bc.hash password cost s

end bcrypt

/-! ## Request binding (`ShouldBindJSON` with the `binding` tags) -/

namespace handler

/-- The struct `CreateUserInput` of the handler package. -/
structure CreateUserInput where
  Name : String
  Email : String
  Password : String
  deriving DecidableEq, Repr

/-- The struct `UpdateUserInput` of the handler package. -/
structure UpdateUserInput where
  Name : String
  deriving DecidableEq, Repr

/-- What `encoding/json` makes of a request body for an input struct: the decoder's
error text (no JSON, a member of the wrong type, an empty body), or the struct, in
which a member absent from the body keeps the zero value `""`. -/
abbrev Decoded (α : Type) := Except String α

/-- The text of one validator `FieldError`. -/
def fieldError (struct field tag : String) : String :=
  let q := String.singleton (Char.ofNat 39)
  "Key: " ++ q ++ struct ++ "." ++ field ++ q ++ " Error:Field validation for " ++ q ++ field
    ++ q ++ " failed on the " ++ q ++ tag ++ q ++ " tag"

/-- Tag `required` on a string field: the value is not the zero value. -/
def required (v : String) : Bool := v != ""

/-- Tag `min=n` on a string field: at least `n` runes. -/
def minLen (n : Nat) (v : String) : Bool := n ≤ v.length

/-- The tags of one field are checked in order and the first that fails is the
field's error: the list `checks` holds each tag with its verdict. -/
def checkField (struct field : String) (checks : List (String × Bool)) : List String :=
  match checks.find? (fun c => !c.2) with
  | some c => [fieldError struct field c.1]
  | none => []

/-- The validation of `CreateUserInput`: `Name` is `required`; `Email` is
`required,email`; `Password` is `required,min=8`.  The address syntax of tag `email`
is the validator's regular expression, the parameter `isEmail`. -/
def validateCreate (isEmail : String → Bool) (i : CreateUserInput) : List String :=
  checkField "CreateUserInput" "Name" [("required", required i.Name)]
  ++ checkField "CreateUserInput" "Email"
      [("required", required i.Email), ("email", isEmail i.Email)]
  ++ checkField "CreateUserInput" "Password"
      [("required", required i.Password), ("min", minLen 8 i.Password)]

/-- The validation of `UpdateUserInput`: `Name` is `required`. -/
def validateUpdate (i : UpdateUserInput) : List String :=
  checkField "UpdateUserInput" "Name" [("required", required i.Name)]

/-- The call `c.ShouldBindJSON(&input)`: decode, then validate; the error of a failed
validation is the field errors joined by newlines. -/
def ShouldBindJSON {α : Type} (validate : α → List String) (body : Decoded α) :
    Except String α :=
  match body with
  | .error e => .error e
  | .ok i =>
    match validate i with
    | [] => .ok i
    | errs => .error (String.intercalate "\n" errs)

end handler

/-! ## The store behind gorm -/

namespace gorm

/-- The database behind `*gorm.DB`, as far as the `users` table goes: its rows (the
soft-deleted ones included), the last value of the auto-increment counter and the
time `NowFunc()` returns.  The store is healthy: no statement fails for lack of a
connection. -/
structure DB where
  rows : List User
  seq : Nat
  now : Time
  deriving DecidableEq, Repr

/-- The scope gorm adds to every query and update of a model with `DeletedAt`:
`deleted_at IS NULL`. -/
def live (u : User) : Bool := u.Model.DeletedAt.isNone

/-- The row with the least primary key (`ORDER BY id LIMIT 1`). -/
def firstByID : List User → Option User
  | [] => none
  | u :: us =>
    match firstByID us with
    | none => some u
    | some v => if v.Model.ID < u.Model.ID then some v else some u

/-- The call `db.First(&user, ...)` with a condition: the live row that satisfies it
and has the least id, or `ErrRecordNotFound`. -/
def First (cond : User → Bool) : Op DB User := fun db =>
  match firstByID (db.rows.filter (fun r => cond r && live r)) with
  | some u => (.ok u, db)
  | none => (.error .ErrRecordNotFound, db)

/-- The call `db.Find(&users)`: all live rows. -/
def Find : Op DB (List User) := fun db => (.ok (db.rows.filter live), db)

/-- The error of the driver for a row that breaks the unique index on `email`.
With the plain `&gorm.Config{}` of `ConnectDB` gorm hands it on untranslated. -/
def uniqueEmailViolation : GoError := .other "UNIQUE constraint failed: users.email"

/-- The error of the driver for a row that repeats a primary key. -/
def uniqueIDViolation : GoError := .other "UNIQUE constraint failed: users.id"

/-- The call `db.Create(user)`: zero `CreatedAt` and `UpdatedAt` are set to now in the
struct, then the row is inserted.  The unique index on `email` spans all rows, the
soft-deleted ones too.  A zero id is replaced by the next auto-increment value,
written back to the struct. -/
def Create (user : User) : PtrOp DB User := fun db =>
  let stamped : User :=
    { user with Model := { user.Model with
        CreatedAt := if user.Model.CreatedAt = 0 then db.now else user.Model.CreatedAt
        UpdatedAt := if user.Model.UpdatedAt = 0 then db.now else user.Model.UpdatedAt } }
  if db.rows.any (fun r => r.Email == user.Email) then
    ((stamped, some uniqueEmailViolation), db)
  else if user.Model.ID ≠ 0 ∧ db.rows.any (fun r => r.Model.ID == user.Model.ID) then
    ((stamped, some uniqueIDViolation), db)
  else
    let id := if user.Model.ID = 0 then db.seq + 1 else user.Model.ID
    let stored : User := { stamped with Model := { stamped.Model with ID := id } }
    ((stored, none), { db with rows := db.rows ++ [stored], seq := max db.seq id })

/-- The call `db.Save(user)`.  Without a primary key it is `Create`.  Otherwise
`UpdatedAt` is set to now in the struct and all columns of the live row with that id
are overwritten.  When no live row has the id, gorm falls back to an insert (a zero
`CreatedAt` is set to now) that, on a conflict of the id, overwrites every column of
the row but `created_at`. -/
def Save (user : User) : PtrOp DB User := fun db =>
  if user.Model.ID = 0 then Create user db
  else
    let touched : User := { user with Model := { user.Model with UpdatedAt := db.now } }
    if db.rows.any (fun r => r.Model.ID != user.Model.ID && r.Email == user.Email) then
      ((touched, some uniqueEmailViolation), db)
    else if db.rows.any (fun r => r.Model.ID == user.Model.ID && live r) then
      ((touched, none),
        { db with rows := (db.rows.map
            (fun r => if r.Model.ID == user.Model.ID && live r then touched else r)) })
    else
      let stamped : User :=
        { touched with Model := { touched.Model with
            CreatedAt := if user.Model.CreatedAt = 0 then db.now else user.Model.CreatedAt } }
      if db.rows.any (fun r => r.Model.ID == user.Model.ID) then
        ((stamped, none),
          { db with rows := (db.rows.map
              (fun r => if r.Model.ID == user.Model.ID then
                { stamped with Model := { stamped.Model with CreatedAt := r.Model.CreatedAt } }
                else r)) })
      else
        ((stamped, none),
          { db with rows := db.rows ++ [stamped], seq := max db.seq user.Model.ID })

/-- The call `db.Delete(&User{}, id)` for a model with `DeletedAt`: the statement
`UPDATE users SET deleted_at = now WHERE id = ? AND deleted_at IS NULL`.  A statement
that touches no row is no error: gorm reports it only in `RowsAffected`. -/
def Delete (id : Nat) : ErrOp DB := fun db =>
  (none,
    { db with rows := (db.rows.map
        (fun r => if r.Model.ID == id && live r then
          { r with Model := { r.Model with DeletedAt := some db.now } } else r)) })

end gorm

/-! ## Repository (`internal/user/repositories/user_repository.go`)

The repository file works on `entities.User`, the twin of `model.User` in the
parallel package; the one entity type above stands for both. -/

namespace repositories

/-- The interface `UserRepository` over a world `σ`. -/
structure UserRepository (σ : Type) where
  Create : User → PtrOp σ User
  FindAll : Op σ (List User)
  FindByID : Nat → Op σ User
  FindByEmail : String → Op σ User
  Update : User → PtrOp σ User
  Delete : Nat → ErrOp σ

namespace userRepository

/-- Method `Create`: `r.db.Create(user)` and its error. -/
def Create (user : User) : PtrOp gorm.DB User := gorm.Create user

/-- Method `FindAll`: `r.db.Find(&users)`. -/
def FindAll : Op gorm.DB (List User) := gorm.Find

/-- Method `FindByID`: `r.db.First(&user, id)`. -/
def FindByID (id : Nat) : Op gorm.DB User := gorm.First (fun r => r.Model.ID == id)

/-- Method `FindByEmail`: `r.db.Where("email = ?", email).First(&user)`. -/
def FindByEmail (email : String) : Op gorm.DB User := gorm.First (fun r => r.Email == email)

/-- Method `Update`: `r.db.Save(user)` and its error. -/
def Update (user : User) : PtrOp gorm.DB User := gorm.Save user

/-- Method `Delete`: `r.db.Delete(&entities.User{}, id)` and its error. -/
def Delete (id : Nat) : ErrOp gorm.DB := gorm.Delete id

end userRepository

/-- The constructor `NewUserRepository(db)`: the gorm-backed repository. -/
def NewUserRepository : UserRepository gorm.DB where
  Create := userRepository.Create
  FindAll := userRepository.FindAll
  FindByID := userRepository.FindByID
  FindByEmail := userRepository.FindByEmail
  Update := userRepository.Update
  Delete := userRepository.Delete

end repositories

open repositories (UserRepository NewUserRepository)

/-! ## Service (`internal/auth/service/user_service.go`) -/

namespace service

/-- The interface `UserService` over a world `σ`. -/
structure UserService (σ : Type) where
  CreateUser : String → String → String → Op σ User
  GetAllUsers : Op σ (List User)
  GetUserByID : Nat → Op σ User
  UpdateUser : Nat → String → Op σ User
  DeleteUser : Nat → ErrOp σ

/-- The sentinel `ErrEmailExists`. -/
def ErrEmailExists : GoError := .ErrEmailExists

namespace userService

variable {σ : Type}

/-- Method `CreateUser`: probe the email, hash the password, build the entity, have
the repository store it. -/
def CreateUser (repo : UserRepository σ) (bc : bcrypt.Backend σ)
    (name email password : String) : Op σ User := fun s =>
  match repo.FindByEmail email s with
  | (.ok _, s1) => (.error ErrEmailExists, s1)
  | (.error err, s1) =>
    if !errorsIs err .ErrRecordNotFound then (.error err, s1)
    else
      match bcrypt.GenerateFromPassword bc password bcrypt.DefaultCost s1 with
      | (.error err, s2) => (.error err, s2)
      | (.ok hashedPassword, s2) =>
        let user : User :=
          { Model := { ID := 0, CreatedAt := 0, UpdatedAt := 0, DeletedAt := none }
            Name := name
            Email := email
            Password := hashedPassword }
        match repo.Create user s2 with
        | ((_, some err), s3) => (.error err, s3)
        | ((user, none), s3) => (.ok user, s3)

/-- Method `GetAllUsers`. -/
def GetAllUsers (repo : UserRepository σ) : Op σ (List User) := repo.FindAll

/-- Method `GetUserByID`. -/
def GetUserByID (repo : UserRepository σ) (id : Nat) : Op σ User := repo.FindByID id

/-- Method `UpdateUser`: find the user, set its name, save it. -/
def UpdateUser (repo : UserRepository σ) (id : Nat) (name : String) : Op σ User := fun s =>
  match repo.FindByID id s with
  | (.error err, s1) => (.error err, s1)
  | (.ok user, s1) =>
    let user : User := { user with Name := name }
    match repo.Update user s1 with
    | ((_, some err), s2) => (.error err, s2)
    | ((user, none), s2) => (.ok user, s2)

/-- Method `DeleteUser`. -/
def DeleteUser (repo : UserRepository σ) (id : Nat) : ErrOp σ := repo.Delete id

end userService

/-- The constructor `NewUserService(repo)`. -/
def NewUserService {σ : Type} (repo : UserRepository σ) (bc : bcrypt.Backend σ) :
    UserService σ where
  CreateUser := userService.CreateUser repo bc
  GetAllUsers := userService.GetAllUsers repo
  GetUserByID := userService.GetUserByID repo
  UpdateUser := userService.UpdateUser repo
  DeleteUser := userService.DeleteUser repo

end service

open service (UserService NewUserService)

/-! ## Handler (`internal/auth/handler/user_handler.go`) -/

namespace handler

variable {σ : Type}

/-- Handler `CreateUser` (POST /users). -/
def CreateUser (h : UserService σ) (isEmail : String → Bool)
    (body : Decoded CreateUserInput) : σ → Response × σ := fun s =>
  match ShouldBindJSON (validateCreate isEmail) body with
  | .error err => (⟨StatusBadRequest, errorBody err⟩, s)
  | .ok input =>
    match h.CreateUser input.Name input.Email input.Password s with
    | (.error err, s1) =>
      if errorsIs err service.ErrEmailExists then
        (⟨StatusConflict, errorBody "Email already in use"⟩, s1)
      else (⟨StatusInternalServerError, errorBody "Failed to create user"⟩, s1)
    | (.ok user, s1) => (⟨StatusCreated, .obj (marshalUser user)⟩, s1)

/-- Handler `GetAllUsers` (GET /users). -/
def GetAllUsers (h : UserService σ) : σ → Response × σ := fun s =>
  match h.GetAllUsers s with
  | (.error _, s1) => (⟨StatusInternalServerError, errorBody "Failed to retrieve users"⟩, s1)
  | (.ok users, s1) => (⟨StatusOK, .arr (users.map marshalUser)⟩, s1)

/-- Handler `GetUserByID` (GET /users/:id).  The conversion `uint(id)` of a value
`ParseUint(_, 10, 32)` returned, which is below `2^32`, changes nothing. -/
def GetUserByID (h : UserService σ) (idParam : String) : σ → Response × σ := fun s =>
  match strconv.ParseUint idParam 10 32 with
  | .error _ => (⟨StatusBadRequest, errorBody "Invalid user ID"⟩, s)
  | .ok id =>
    match h.GetUserByID id s with
    | (.error _, s1) => (⟨StatusNotFound, errorBody "User not found"⟩, s1)
    | (.ok user, s1) => (⟨StatusOK, .obj (marshalUser user)⟩, s1)

/-- Handler `UpdateUser` (PUT /users/:id). -/
def UpdateUser (h : UserService σ) (idParam : String) (body : Decoded UpdateUserInput) :
    σ → Response × σ := fun s =>
  match strconv.ParseUint idParam 10 32 with
  | .error _ => (⟨StatusBadRequest, errorBody "Invalid user ID"⟩, s)
  | .ok id =>
    match ShouldBindJSON validateUpdate body with
    | .error err => (⟨StatusBadRequest, errorBody err⟩, s)
    | .ok input =>
      match h.UpdateUser id input.Name s with
      | (.error _, s1) =>
        (⟨StatusNotFound, errorBody "User not found or failed to update"⟩, s1)
      | (.ok user, s1) => (⟨StatusOK, .obj (marshalUser user)⟩, s1)

/-- Handler `DeleteUser` (DELETE /users/:id). -/
def DeleteUser (h : UserService σ) (idParam : String) : σ → Response × σ := fun s =>
  match strconv.ParseUint idParam 10 32 with
  | .error _ => (⟨StatusBadRequest, errorBody "Invalid user ID"⟩, s)
  | .ok id =>
    match h.DeleteUser id s with
    | (some _, s1) => (⟨StatusNotFound, errorBody "User not found or failed to delete"⟩, s1)
    | (none, s1) => (⟨StatusOK, messageBody "User deleted successfully"⟩, s1)

end handler

/-! ## Call traces

To say that a layer is or is not called, a collaborator is wrapped so that each of
its methods appends its name and arguments to a log carried next to the world. -/

/-- Run `f` on the world and append `c` to the log. -/
def logged {σ α κ : Type} (c : κ) (f : σ → α × σ) : σ × List κ → α × (σ × List κ) :=
  fun w => ((f w.1).1, ((f w.1).2, w.2 ++ [c]))

/-- A call the service can make: a repository method, or the hashing work of bcrypt. -/
inductive RepoCall where
  | Create (user : User)
  | FindAll
  | FindByID (id : Nat)
  | FindByEmail (email : String)
  | Update (user : User)
  | Delete (id : Nat)
  | Hash (password : String) (cost : Nat)
  deriving DecidableEq, Repr

/-- A call the handler can make: a service method. -/
inductive SvcCall where
  | CreateUser (name email password : String)
  | GetAllUsers
  | GetUserByID (id : Nat)
  | UpdateUser (id : Nat) (name : String)
  | DeleteUser (id : Nat)
  deriving DecidableEq, Repr

/-- The repository `repo`, logging its calls. -/
def repositories.UserRepository.traced {σ : Type} (repo : UserRepository σ) :
    UserRepository (σ × List RepoCall) where
  Create u := logged (.Create u) (repo.Create u)
  FindAll := logged .FindAll repo.FindAll
  FindByID id := logged (.FindByID id) (repo.FindByID id)
  FindByEmail e := logged (.FindByEmail e) (repo.FindByEmail e)
  Update u := logged (.Update u) (repo.Update u)
  Delete id := logged (.Delete id) (repo.Delete id)

/-- The bcrypt backend `bc`, logging its calls. -/
def bcrypt.Backend.traced {σ : Type} (bc : bcrypt.Backend σ) :
    bcrypt.Backend (σ × List RepoCall) where
  hash p c := logged (.Hash p c) (bc.hash p c)

/-- The service `h`, logging its calls. -/
def service.UserService.traced {σ : Type} (h : UserService σ) :
    UserService (σ × List SvcCall) where
  CreateUser n e p := logged (.CreateUser n e p) (h.CreateUser n e p)
  GetAllUsers := logged .GetAllUsers h.GetAllUsers
  GetUserByID id := logged (.GetUserByID id) (h.GetUserByID id)
  UpdateUser id n := logged (.UpdateUser id n) (h.UpdateUser id n)
  DeleteUser id := logged (.DeleteUser id) (h.DeleteUser id)

/-! ## Reading of the claims -/

/-- The number a list of decimal digits denotes. -/
def decimalValue (cs : List Char) : Nat :=
  cs.foldl (fun n c => 10 * n + (c.toNat - 48)) 0

/-- The string is a base-10 unsigned integer in the range `0..2^32-1`: not empty,
digits only, value below `2^32`. -/
def IsUint32Decimal (s : String) : Prop :=
  s ≠ "" ∧ (∀ c ∈ s.toList, c.isDigit = true) ∧ decimalValue s.toList < 2 ^ 32

/-- No member of the body is named `password` in any spelling of case. -/
def noPasswordKey (b : Body) : Prop :=
  ∀ k ∈ b.keys, k.toList.map Char.toLower ≠ "password".toList

/-- Two users that differ at most in `Password`. -/
def samePublic (u v : User) : Prop :=
  u.Model = v.Model ∧ u.Name = v.Name ∧ u.Email = v.Email

/-- An error is unclassified when it is neither of the two sentinels the pipeline
knows. -/
def unclassified (e : GoError) : Prop :=
  errorsIs e .ErrEmailExists = false ∧ errorsIs e .ErrRecordNotFound = false

/-! ## Sample collaborators and data -/

/-- A repository whose store cannot be reached: every method fails with `e`. -/
def repositories.unreachable (e : GoError) : UserRepository Unit where
  Create u := fun s => ((u, some e), s)
  FindAll := fun s => (.error e, s)
  FindByID _ := fun s => (.error e, s)
  FindByEmail _ := fun s => (.error e, s)
  Update u := fun s => ((u, some e), s)
  Delete _ := fun s => (some e, s)

/-- A bcrypt backend without randomness, to run the pipeline on sample inputs. -/
def sampleBackend (σ : Type) : bcrypt.Backend σ where
  hash p _ := fun s => (.ok ("$2a$10$" ++ p), s)

/-- A stand-in for the address syntax of the validator: the text holds an `@`. -/
def sampleIsEmail (s : String) : Bool := s.toList.contains (Char.ofNat 64)

/-- The error of a lost connection. -/
def connRefused : GoError := .other "dial tcp 127.0.0.1:3306: connect: connection refused"

def ana : User :=
  { Model := { ID := 1, CreatedAt := 1, UpdatedAt := 1, DeletedAt := none }
    Name := "Ana"
    Email := "ana@x.com"
    Password := "$2a$10$N9qo8uLOickgx2ZMRZoMye" }

/-- The user `ana`, soft-deleted at time 3. -/
def anaDeleted : User :=
  { ana with Model := { ana.Model with DeletedAt := some 3 } }

def dbEmpty : gorm.DB := { rows := [], seq := 0, now := 5 }
def dbAna : gorm.DB := { rows := [ana], seq := 1, now := 5 }
def dbAnaDeleted : gorm.DB := { rows := [anaDeleted], seq := 1, now := 5 }

/-- The error of a full disk. -/
def diskFull : GoError := .other "write /var/lib/mysql: no space left on device"

/-- The real service over a store that fails every call with `e`. -/
def downService (e : GoError) : UserService Unit :=
  NewUserService (repositories.unreachable e) (sampleBackend Unit)

/-- A second bcrypt backend without randomness, with another salt. -/
def otherBackend (σ : Type) : bcrypt.Backend σ where
  hash p _ := fun s => (.ok ("$2a$10$zzzzzzzz" ++ p), s)

/-- The user `ana` with another password hash. -/
def anaRehashed : User := { ana with Password := "$2a$10$zzzzzzzzsecret123" }

def dbAnaRehashed : gorm.DB := { rows := [anaRehashed], seq := 1, now := 5 }

/-- The gorm-backed service with the first sample backend. -/
def sampleService : UserService gorm.DB :=
  NewUserService NewUserRepository (sampleBackend gorm.DB)

/-- The gorm-backed service with the second sample backend. -/
def otherService : UserService gorm.DB :=
  NewUserService NewUserRepository (otherBackend gorm.DB)

/-- The user the first sample service creates for Eva in `dbAna`. -/
def eva : User :=
  { Model := { ID := 2, CreatedAt := 5, UpdatedAt := 5, DeletedAt := none }
    Name := "Eva"
    Email := "eva@x.com"
    Password := "$2a$10$secret123" }

/-- The user the second sample service creates for Eva in `dbAnaRehashed`. -/
def evaRehashed : User := { eva with Password := "$2a$10$zzzzzzzzsecret123" }

/-- The entity a concurrent request stores under Eva's email. -/
def evaRival : User :=
  { Model := { ID := 0, CreatedAt := 0, UpdatedAt := 0, DeletedAt := none }
    Name := "Eve"
    Email := "eva@x.com"
    Password := "$2a$10$rival" }

/-- A bcrypt backend during whose hashing work a concurrent request stores `rival`:
the world it hands back holds the rival's row.  This is the check-then-act race of
`CreateUser`, the probe on one side of the slow hashing step and the insert on the
other. -/
def racingBackend (rival : User) : bcrypt.Backend gorm.DB where
  hash p _ := fun db => (.ok ("$2a$10$" ++ p), (gorm.Create rival db).2)

/-- The store `dbAna` after the concurrent request has stored `evaRival`. -/
def dbAnaRival : gorm.DB :=
  { rows := [ana, { evaRival with Model := { ID := 2, CreatedAt := 5, UpdatedAt := 5,
                                              DeletedAt := none } }]
    seq := 2
    now := 5 }

/-- A password of 73 bytes. -/
def longPassword : String := String.mk (List.replicate 73 (Char.ofNat 97))

/-! ## Lemmas on the embedding -/

section Theorems

open handler service repositories

variable {σ : Type}

/-- If the first component of a pair is known, the pair is it with some second one. -/
theorem exists_snd_of_fst {α β : Type} {x : α × β} {a : α} (h : x.1 = a) :
    ∃ b, x = (a, b) := by
  cases x
  simp_all

/-- The member names of a marshalled user. -/
theorem marshalUser_keys (u : User) :
    (marshalUser u).map Prod.fst
      = ["ID", "CreatedAt", "UpdatedAt", "DeletedAt", "name", "email"] := by
  simp [marshalUser]

/-- Users that differ at most in `Password` marshal alike. -/
theorem marshalUser_samePublic {u v : User} (h : samePublic u v) :
    marshalUser u = marshalUser v := by
  obtain ⟨hm, hn, he⟩ := h
  simp [marshalUser, hm, hn, he]

/-- Lists of users that pairwise differ at most in `Password` marshal alike. -/
theorem marshalUsers_samePublic {us vs : List User} (h : List.Forall₂ samePublic us vs) :
    us.map marshalUser = vs.map marshalUser := by
  induction h with
  | nil => rfl
  | cons hd _ ih => simp [marshalUser_samePublic hd, ih]

/-- A marshalled user has no member named `password`. -/
theorem noPasswordKey_user (u : User) : noPasswordKey (.obj (marshalUser u)) := by
  intro k hk
  simp only [Body.keys, marshalUser_keys] at hk
  simp only [List.mem_cons, List.mem_singleton, List.not_mem_nil, or_false] at hk
  rcases hk with h | h | h | h | h | h <;> subst h <;> decide

/-- A marshalled list of users has no member named `password`. -/
theorem noPasswordKey_users (us : List User) :
    noPasswordKey (.arr (us.map marshalUser)) := by
  intro k hk
  simp only [Body.keys, List.map_map, List.mem_flatten, List.mem_map,
    Function.comp_apply] at hk
  obtain ⟨l, ⟨u, _, rfl⟩, hkl⟩ := hk
  exact noPasswordKey_user u k (by simpa [Body.keys] using hkl)

/-- Tag `required` passes exactly on a non-empty string. -/
theorem required_iff (v : String) : required v = true ↔ v ≠ "" := by
  simp [required]

/-- The tags of `CreateUserInput` all pass exactly when the name and the email are
not empty, the email has the address syntax and the password has 8 runes or more. -/
theorem validateCreate_eq_nil_iff (isEmail : String → Bool) (i : CreateUserInput) :
    validateCreate isEmail i = []
      ↔ i.Name ≠ "" ∧ i.Email ≠ "" ∧ isEmail i.Email = true ∧ 8 ≤ i.Password.length := by
  have hpw : 8 ≤ i.Password.length → required i.Password = true := by
    intro h8
    rw [required_iff]
    intro h0
    rw [h0] at h8
    simp at h8
  have hlen : minLen 8 i.Password = true ↔ 8 ≤ i.Password.length := by simp [minLen]
  rw [← required_iff, ← required_iff, ← hlen]
  rw [← hlen] at hpw
  cases h1 : required i.Name <;> cases h2 : required i.Email <;>
    cases h3 : isEmail i.Email <;> cases h4 : required i.Password <;>
    cases h5 : minLen 8 i.Password <;>
    simp_all [validateCreate, checkField, List.find?]

/-- The tag of `UpdateUserInput` passes exactly when the name is not empty. -/
theorem validateUpdate_eq_nil_iff (i : UpdateUserInput) :
    validateUpdate i = [] ↔ i.Name ≠ "" := by
  rw [← required_iff]
  cases h1 : required i.Name <;> simp [validateUpdate, checkField, List.find?, h1]

/-- A body that fails validation does not bind. -/
theorem ShouldBindJSON_invalid {α : Type} (validate : α → List String) (i : α)
    (h : validate i ≠ []) : ∃ msg, ShouldBindJSON validate (.ok i) = .error msg := by
  cases hv : validate i with
  | nil => exact absurd hv h
  | cons e es => exact ⟨String.intercalate "\n" (e :: es), by simp only [ShouldBindJSON, hv]⟩

section ParseUint

open strconv

/-- The digit switch on a decimal digit gives its value. -/
theorem digitVal_isDigit {c : Char} (h : c.isDigit = true) :
    digitVal c = some (c.toNat - 48) := by
  have h1 : '0' ≤ c ∧ c ≤ '9' := by
    simp only [Char.isDigit, Bool.and_eq_true, decide_eq_true_eq] at h
    exact ⟨h.1, h.2⟩
  simp [digitVal, h1]

/-- The digit switch on anything else gives nothing or a value of 10 or more. -/
theorem digitVal_not_isDigit {c : Char} (h : c.isDigit = false) :
    ∀ d, digitVal c = some d → 10 ≤ d := by
  intro d hd
  have h1 : ¬ ('0' ≤ c ∧ c ≤ '9') := by
    intro h2
    have : c.isDigit = true := by
      simp only [Char.isDigit, Bool.and_eq_true, decide_eq_true_eq]
      exact ⟨h2.1, h2.2⟩
    rw [h] at this
    exact Bool.noConfusion this
  unfold digitVal at hd
  rw [if_neg h1] at hd
  split at hd
  · injection hd with hd
    omega
  · exact Option.noConfusion hd

/-- The value of a decimal digit is below 10. -/
theorem isDigit_val_lt {c : Char} (h : c.isDigit = true) : c.toNat - 48 < 10 := by
  simp only [Char.isDigit, Bool.and_eq_true, decide_eq_true_eq] at h
  have h2 : c.val ≤ 57 := h.2
  have : c.toNat ≤ 57 := by
    simpa [Char.toNat] using h2
  omega

/-- Reading further digits does not lower the value read so far. -/
theorem le_foldl_decimal (cs : List Char) (n : Nat) :
    n ≤ cs.foldl (fun n c => 10 * n + (c.toNat - 48)) n := by
  induction cs generalizing n with
  | nil => exact Nat.le_refl n
  | cons c cs ih =>
    simp only [List.foldl_cons]
    exact Nat.le_trans (by omega) (ih _)

/-- The digit loop for base 10 and 32 bits, started below `2^32`, succeeds exactly on
digits whose value stays below `2^32`, and returns that value. -/
theorem parseLoop_decimal (cs : List Char) (n m : Nat) (hn : n < 2 ^ 32) :
    parseLoop 10 (maxUint64 / 10 + 1) (2 ^ 32 - 1) cs n = .ok m
      ↔ (∀ c ∈ cs, c.isDigit = true)
        ∧ cs.foldl (fun n c => 10 * n + (c.toNat - 48)) n = m ∧ m < 2 ^ 32 := by
  induction cs generalizing n with
  | nil =>
    simp only [parseLoop, List.foldl_nil, List.not_mem_nil, false_imp_iff, implies_true,
      true_and, Except.ok.injEq]
    constructor
    · intro h
      exact ⟨h, h ▸ hn⟩
    · exact fun h => h.1
  | cons c cs ih =>
    cases hd : c.isDigit with
    | false =>
      have hv := digitVal_not_isDigit hd
      constructor
      · intro h
        exfalso
        unfold parseLoop at h
        cases hdv : digitVal c with
        | none => simp [hdv] at h
        | some d =>
          have h10 := hv d hdv
          simp [hdv, h10] at h
      · intro h
        have := h.1 c (List.mem_cons_self c cs)
        rw [hd] at this
        exact Bool.noConfusion this
    | true =>
      have hdv := digitVal_isDigit hd
      have hlt := isDigit_val_lt hd
      have hcut : ¬ n ≥ maxUint64 / 10 + 1 := by
        have : maxUint64 / 10 + 1 = 1844674407370955162 := by decide
        omega
      have h0 : n * 10 % 2 ^ 64 = n * 10 := Nat.mod_eq_of_lt (by omega)
      have h1 : (n * 10 + (c.toNat - 48)) % 2 ^ 64 = n * 10 + (c.toNat - 48) :=
        Nat.mod_eq_of_lt (by omega)
      unfold parseLoop
      simp only [hdv, ge_iff_le, hcut, h0, h1, if_false, List.foldl_cons, List.mem_cons,
        forall_eq_or_imp, hd, true_and]
      have hnot : ¬ 10 ≤ c.toNat - 48 := by omega
      simp only [hnot, if_false]
      by_cases hbig : n * 10 + (c.toNat - 48) > 2 ^ 32 - 1
      · have hor : n * 10 + (c.toNat - 48) < n * 10 ∨ n * 10 + (c.toNat - 48) > 2 ^ 32 - 1 :=
          Or.inr hbig
        simp only [hor, if_true]
        constructor
        · intro h
          exact Except.noConfusion h
        · intro h
          have := le_foldl_decimal cs (10 * n + (c.toNat - 48))
          omega
      · have hor : ¬ (n * 10 + (c.toNat - 48) < n * 10
            ∨ n * 10 + (c.toNat - 48) > 2 ^ 32 - 1) := by omega
        simp only [hor, if_false]
        have e : n * 10 + (c.toNat - 48) = 10 * n + (c.toNat - 48) := by omega
        rw [e]
        exact ih (10 * n + (c.toNat - 48)) (by omega)

/-- The call `ParseUint(s, 10, 32)` succeeds exactly on the decimal unsigned integers
below `2^32`, with their value. -/
theorem ParseUint_ok_iff (s : String) (m : Nat) :
    ParseUint s 10 32 = .ok m ↔ IsUint32Decimal s ∧ decimalValue s.toList = m := by
  unfold ParseUint IsUint32Decimal decimalValue
  by_cases hs : s = ""
  · simp [hs]
  · simp only [hs, if_false, ne_eq, not_false_eq_true, true_and]
    rw [parseLoop_decimal s.toList 0 m (by decide)]
    constructor
    · rintro ⟨h1, h2, h3⟩
      exact ⟨⟨h1, h2 ▸ h3⟩, h2⟩
    · rintro ⟨⟨h1, h3⟩, h2⟩
      exact ⟨h1, h2, h2 ▸ h3⟩

/-- The call `ParseUint(s, 10, 32)` fails exactly on every other string. -/
theorem ParseUint_error_iff (s : String) :
    (∃ e, ParseUint s 10 32 = .error e) ↔ ¬ IsUint32Decimal s := by
  constructor
  · rintro ⟨e, he⟩ hd
    have := (ParseUint_ok_iff s _).2 ⟨hd, rfl⟩
    rw [he] at this
    exact Except.noConfusion this
  · intro hd
    cases hp : ParseUint s 10 32 with
    | error e => exact ⟨e, rfl⟩
    | ok m => exact absurd ((ParseUint_ok_iff s m).1 hp).1 hd

end ParseUint

section Gorm

open gorm

/-- The row `firstByID` picks is one of the list. -/
theorem firstByID_mem {l : List User} {u : User} (h : firstByID l = some u) : u ∈ l := by
  induction l generalizing u with
  | nil => simp [firstByID] at h
  | cons a as ih =>
    unfold firstByID at h
    cases hr : firstByID as with
    | none =>
      simp only [hr, Option.some.injEq] at h
      subst h
      exact List.mem_cons_self _ _
    | some v =>
      simp only [hr] at h
      split at h
      · simp only [Option.some.injEq] at h
        subst h
        exact List.mem_cons_of_mem _ (ih hr)
      · simp only [Option.some.injEq] at h
        subst h
        exact List.mem_cons_self _ _

/-- What `First` finds is a live row of the table that satisfies the condition, and
the table is left as it was. -/
theorem First_ok {cond : User → Bool} {db db1 : DB} {u : User}
    (h : First cond db = (.ok u, db1)) :
    u ∈ db.rows ∧ cond u = true ∧ live u = true ∧ db1 = db := by
  unfold First at h
  cases hr : firstByID (db.rows.filter (fun r => cond r && live r)) with
  | none => simp [hr] at h
  | some v =>
    simp only [hr, Prod.mk.injEq, Except.ok.injEq] at h
    obtain ⟨hv, hdb⟩ := h
    subst hv
    have hm := firstByID_mem hr
    simp only [List.mem_filter, Bool.and_eq_true] at hm
    exact ⟨hm.1, hm.2.1, hm.2.2, hdb.symm⟩

/-- When `Save` reports no error for an entity that has the id and the email of a
live row of the table, it leaves the entity as it was given but for `UpdatedAt`, set
to now. -/
theorem Save_ok {user v : User} {db : DB}
    (hmem : ∃ r ∈ db.rows, r.Model.ID = user.Model.ID ∧ live r = true ∧ r.Email = user.Email)
    (h : (Save user db).1 = (v, none)) :
    v = { user with Model := { user.Model with UpdatedAt := db.now } } := by
  obtain ⟨r, hr, hrid, hrl, hre⟩ := hmem
  unfold Save at h
  by_cases hid : user.Model.ID = 0
  · have hany : db.rows.any (fun r => r.Email == user.Email) = true :=
      List.any_eq_true.2 ⟨r, hr, by simp [hre]⟩
    simp [hid, Create, hany] at h
  · have hlive : db.rows.any (fun r => r.Model.ID == user.Model.ID && live r) = true :=
      List.any_eq_true.2 ⟨r, hr, by simp [hrid, hrl]⟩
    simp only [hid, if_false, hlive, if_true] at h
    split at h
    · simp at h
    · simp only [Prod.mk.injEq, and_true] at h
      exact h.symm

/-- When `First` fails, the error is `ErrRecordNotFound` and the table is left as it
was. -/
theorem First_error {cond : User → Bool} {db db1 : DB} {e : GoError}
    (h : First cond db = (.error e, db1)) : e = .ErrRecordNotFound ∧ db1 = db := by
  unfold First at h
  cases hr : firstByID (db.rows.filter (fun r => cond r && live r)) with
  | some v => simp [hr] at h
  | none =>
    simp only [hr, Prod.mk.injEq, Except.error.injEq] at h
    exact ⟨h.1.symm, h.2.symm⟩

/-- When `Create` refuses an entity without a primary key, the error is the
unique-constraint violation on `email` and the table is left as it was. -/
theorem Create_error {user v : User} {db db1 : DB} {err : GoError}
    (hid : user.Model.ID = 0) (h : Create user db = ((v, some err), db1)) :
    err = uniqueEmailViolation ∧ db1 = db := by
  unfold Create at h
  by_cases hany : db.rows.any (fun r => r.Email == user.Email) = true
  · simp only [hany, if_true, Prod.mk.injEq, Option.some.injEq] at h
    exact ⟨h.1.2.symm, h.2.symm⟩
  · simp [hany, hid] at h

end Gorm

/-- Repository `Delete` on the gorm store reports no error, whatever the id. -/
theorem Delete_reports_no_error (id : Nat) (db : gorm.DB) :
    (userRepository.Delete id db).1 = none := rfl

/-- Service `CreateUser` over the gorm-backed repository, when it succeeds, returns
an entity with exactly the supplied name and email, and the password had at most 72
bytes. -/
theorem CreateUser_ok_fields (bc : bcrypt.Backend gorm.DB) (name email password : String)
    (db : gorm.DB) (u : User)
    (h : (userService.CreateUser NewUserRepository bc name email password db).1 = .ok u) :
    u.Name = name ∧ u.Email = email ∧ password.utf8ByteSize ≤ 72 := by
  unfold userService.CreateUser at h
  rcases hf : NewUserRepository.FindByEmail email db with ⟨r, t⟩
  rw [hf] at h
  cases r with
  | ok x => simp at h
  | error e =>
    simp only at h
    split at h
    · simp at h
    · rcases hg : bcrypt.GenerateFromPassword bc password bcrypt.DefaultCost t with ⟨g, t2⟩
      rw [hg] at h
      cases g with
      | error e2 => simp at h
      | ok hashed =>
        simp only at h
        have hlen : password.utf8ByteSize ≤ 72 := by
          by_contra hc
          have hgt : password.utf8ByteSize > 72 := by omega
          simp [bcrypt.GenerateFromPassword, hgt] at hg
        by_cases hany : t2.rows.any (fun r => r.Email == email) = true
        · simp [NewUserRepository, userRepository.Create, gorm.Create, hany] at h
        · simp [NewUserRepository, userRepository.Create, gorm.Create, hany] at h
          subst h
          exact ⟨rfl, rfl, hlen⟩

/-! ## The claims -/

/-- C1. When the probe `FindByEmail(email)` returns a user without error, service
`CreateUser` fails with `ErrEmailExists` having made that one call only (no hashing,
no repository `Create`, the world is as the probe left it, and with the gorm-backed
repository the store is the one before the request); handler `CreateUser`, for a
body that binds to these values, answers 409 "Email already in use"; and for any
body with this email, valid or not, the status is not 500. -/
theorem C1_existing_email_conflict (repo : UserRepository σ) (bc : bcrypt.Backend σ)
    (isEmail : String → Bool) (name email password : String) (u : User) (s s1 : σ)
    (hfind : repo.FindByEmail email s = (.ok u, s1)) :
    userService.CreateUser repo.traced bc.traced name email password (s, [])
        = (.error ErrEmailExists, (s1, [RepoCall.FindByEmail email]))
    ∧ (validateCreate isEmail ⟨name, email, password⟩ = [] →
        handler.CreateUser (NewUserService repo.traced bc.traced) isEmail
            (.ok ⟨name, email, password⟩) (s, [])
          = (⟨StatusConflict, errorBody "Email already in use"⟩,
              (s1, [RepoCall.FindByEmail email])))
    ∧ (handler.CreateUser (NewUserService repo bc) isEmail
          (.ok ⟨name, email, password⟩) s).1.status ≠ StatusInternalServerError
    ∧ (∀ (db : gorm.DB) (b : bcrypt.Backend gorm.DB) (v : User),
        (NewUserRepository.FindByEmail email db).1 = .ok v →
        userService.CreateUser NewUserRepository b name email password db
          = (.error ErrEmailExists, db)) := by
  have hsvc : ∀ (r : UserRepository σ) (b : bcrypt.Backend σ),
      r.FindByEmail email s = (.ok u, s1) →
      userService.CreateUser r b name email password s = (.error ErrEmailExists, s1) := by
    intro r b h
    simp [userService.CreateUser, h]
  refine ⟨?_, ?_, ?_, ?_⟩
  · simp [userService.CreateUser, UserRepository.traced, logged, hfind]
  · intro hv
    simp [handler.CreateUser, ShouldBindJSON, hv, NewUserService, userService.CreateUser,
      UserRepository.traced, logged, hfind, ErrEmailExists, errorsIs]
  · cases hv : validateCreate isEmail ⟨name, email, password⟩ with
    | nil =>
      simp [handler.CreateUser, ShouldBindJSON, hv, NewUserService, hsvc repo bc hfind,
        ErrEmailExists, errorsIs, StatusConflict, StatusInternalServerError]
    | cons e es =>
      simp [handler.CreateUser, ShouldBindJSON, hv, StatusBadRequest,
        StatusInternalServerError]
  · intro db b v hv
    obtain ⟨t, ht⟩ := exists_snd_of_fst hv
    have hdb : t = db :=
      (First_ok (show gorm.First (fun r => r.Email == email) db = (.ok v, t) from ht)).2.2.2
    subst hdb
    simp [userService.CreateUser, ht]

/-- Witness of C1: Ana's email is taken in `dbAna`. -/
theorem C1_existing_email_conflict_witness :
    userService.CreateUser NewUserRepository.traced (sampleBackend gorm.DB).traced
        "Eva" "ana@x.com" "secret123" (dbAna, [])
        = (.error ErrEmailExists, (dbAna, [RepoCall.FindByEmail "ana@x.com"]))
    ∧ (validateCreate sampleIsEmail ⟨"Eva", "ana@x.com", "secret123"⟩ = [] →
        handler.CreateUser
            (NewUserService NewUserRepository.traced (sampleBackend gorm.DB).traced)
            sampleIsEmail (.ok ⟨"Eva", "ana@x.com", "secret123"⟩) (dbAna, [])
          = (⟨StatusConflict, errorBody "Email already in use"⟩,
              (dbAna, [RepoCall.FindByEmail "ana@x.com"])))
    ∧ (handler.CreateUser (NewUserService NewUserRepository (sampleBackend gorm.DB))
          sampleIsEmail (.ok ⟨"Eva", "ana@x.com", "secret123"⟩) dbAna).1.status
        ≠ StatusInternalServerError
    ∧ userService.CreateUser NewUserRepository (otherBackend gorm.DB)
        "Eva" "ana@x.com" "secret123" dbAna = (.error ErrEmailExists, dbAna) :=
  have T := C1_existing_email_conflict NewUserRepository (sampleBackend gorm.DB)
    sampleIsEmail "Eva" "ana@x.com" "secret123" ana dbAna dbAna (by decide)
  ⟨T.1, T.2.1, T.2.2.1, T.2.2.2 dbAna (otherBackend gorm.DB) ana (by decide)⟩

/-- C2 (as the code has it). When the probe reports not-found, the password is hashed
and repository `Create` then fails with a storage error that is not the service's
sentinel `ErrEmailExists`, service `CreateUser` hands that error on unchanged and
handler `CreateUser` answers 500 "Failed to create user".  With the gorm-backed
repository this is every failure of `Create` after a not-found probe, whatever
happened to the store in between: the error is the unique-constraint violation on
email of the driver, the store is left as `Create` found it, and the answer is 500. -/
theorem C2_create_failure_is_500 (repo : UserRepository σ) (bc : bcrypt.Backend σ)
    (isEmail : String → Bool) (name email password hashed : String) (e err : GoError)
    (u1 : User) (s s1 s2 s3 : σ)
    (hprobe : repo.FindByEmail email s = (.error e, s1))
    (hnf : errorsIs e .ErrRecordNotFound = true)
    (hhash : bcrypt.GenerateFromPassword bc password bcrypt.DefaultCost s1 = (.ok hashed, s2))
    (hcreate : repo.Create
        { Model := { ID := 0, CreatedAt := 0, UpdatedAt := 0, DeletedAt := none }
          Name := name, Email := email, Password := hashed } s2 = ((u1, some err), s3))
    (hstorage : errorsIs err ErrEmailExists = false)
    (hvalid : validateCreate isEmail ⟨name, email, password⟩ = []) :
    userService.CreateUser repo bc name email password s = (.error err, s3)
    ∧ handler.CreateUser (NewUserService repo bc) isEmail (.ok ⟨name, email, password⟩) s
        = (⟨StatusInternalServerError, errorBody "Failed to create user"⟩, s3)
    ∧ (∀ (b : bcrypt.Backend gorm.DB) (db db1 db2 db3 : gorm.DB) (e0 err0 : GoError)
        (v : User),
        NewUserRepository.FindByEmail email db = (.error e0, db1) →
        bcrypt.GenerateFromPassword b password bcrypt.DefaultCost db1 = (.ok hashed, db2) →
        NewUserRepository.Create
          { Model := { ID := 0, CreatedAt := 0, UpdatedAt := 0, DeletedAt := none }
            Name := name, Email := email, Password := hashed } db2 = ((v, some err0), db3) →
        err0 = gorm.uniqueEmailViolation ∧ db3 = db2
        ∧ userService.CreateUser NewUserRepository b name email password db
            = (.error gorm.uniqueEmailViolation, db2)
        ∧ handler.CreateUser (NewUserService NewUserRepository b) isEmail
            (.ok ⟨name, email, password⟩) db
            = (⟨StatusInternalServerError, errorBody "Failed to create user"⟩, db2)) := by
  have hsvc : userService.CreateUser repo bc name email password s = (.error err, s3) := by
    simp [userService.CreateUser, hprobe, hnf, hhash, hcreate]
  refine ⟨hsvc, ?_, ?_⟩
  · simp [handler.CreateUser, ShouldBindJSON, hvalid, NewUserService, hsvc, hstorage]
  · intro b db db1 db2 db3 e0 err0 v hp hh hc
    obtain ⟨he0, hdb1⟩ := First_error
      (show gorm.First (fun r => r.Email == email) db = (.error e0, db1) from hp)
    obtain ⟨herr, hdb3⟩ := Create_error rfl
      (show gorm.Create _ db2 = ((v, some err0), db3) from hc)
    subst he0 hdb1 herr hdb3
    have hs2 : userService.CreateUser NewUserRepository b name email password db1
        = (.error gorm.uniqueEmailViolation, db3) := by
      simp [userService.CreateUser, hp, hh, hc, errorsIs]
    refine ⟨rfl, rfl, hs2, ?_⟩
    have hno : errorsIs gorm.uniqueEmailViolation ErrEmailExists = false := by decide
    simp [handler.CreateUser, ShouldBindJSON, hvalid, NewUserService, hs2, hno]

/-- Witness of C2: while the request for Eva hashes her password, a concurrent
request stores `evaRival` under the same email. -/
theorem C2_create_failure_is_500_witness :
    userService.CreateUser NewUserRepository (racingBackend evaRival)
        "Eva" "eva@x.com" "secret123" dbAna
        = (.error gorm.uniqueEmailViolation, dbAnaRival)
    ∧ handler.CreateUser (NewUserService NewUserRepository (racingBackend evaRival))
        sampleIsEmail (.ok ⟨"Eva", "eva@x.com", "secret123"⟩) dbAna
        = (⟨StatusInternalServerError, errorBody "Failed to create user"⟩, dbAnaRival)
    ∧ handler.CreateUser (NewUserService NewUserRepository (sampleBackend gorm.DB))
        sampleIsEmail (.ok ⟨"Eva", "eva@x.com", "secret123"⟩) dbAnaRival
        = (⟨StatusConflict, errorBody "Email already in use"⟩, dbAnaRival) :=
  have T := C2_create_failure_is_500 NewUserRepository (racingBackend evaRival)
    sampleIsEmail "Eva" "eva@x.com" "secret123" "$2a$10$secret123" .ErrRecordNotFound
    gorm.uniqueEmailViolation
    { Model := { ID := 0, CreatedAt := 5, UpdatedAt := 5, DeletedAt := none }
      Name := "Eva", Email := "eva@x.com", Password := "$2a$10$secret123" }
    dbAna dbAna dbAnaRival dbAnaRival
    (by decide) (by decide) (by decide) (by decide) (by decide) (by decide)
  ⟨T.1, T.2.1, by decide⟩

/-- Counterexample to C2 as stated.  The race: the probe for "eva@x.com" in `dbAna`
reports not-found, a concurrent request stores that email while the password is
hashed, repository `Create` fails with the unique-constraint violation on email, and
handler `CreateUser` answers 500, not 409.  The same without a race in
`dbAnaDeleted`, where the email of the soft-deleted Ana is invisible to the probe and
still held by the unique index. -/
theorem C2_counterexample :
    (NewUserRepository.FindByEmail "eva@x.com" dbAna).1 = .error .ErrRecordNotFound
    ∧ bcrypt.GenerateFromPassword (racingBackend evaRival) "secret123" bcrypt.DefaultCost
          dbAna = (.ok "$2a$10$secret123", dbAnaRival)
    ∧ (NewUserRepository.Create
          { Model := { ID := 0, CreatedAt := 0, UpdatedAt := 0, DeletedAt := none }
            Name := "Eva", Email := "eva@x.com", Password := "$2a$10$secret123" }
          dbAnaRival).1.2 = some gorm.uniqueEmailViolation
    ∧ (handler.CreateUser (NewUserService NewUserRepository (racingBackend evaRival))
          sampleIsEmail (.ok ⟨"Eva", "eva@x.com", "secret123"⟩) dbAna).1.status
        = StatusInternalServerError
    ∧ (handler.CreateUser (NewUserService NewUserRepository (racingBackend evaRival))
          sampleIsEmail (.ok ⟨"Eva", "eva@x.com", "secret123"⟩) dbAna).1.status
        ≠ StatusConflict
    ∧ (NewUserRepository.FindByEmail "ana@x.com" dbAnaDeleted).1 = .error .ErrRecordNotFound
    ∧ (NewUserRepository.Create
          { Model := { ID := 0, CreatedAt := 0, UpdatedAt := 0, DeletedAt := none }
            Name := "Eva", Email := "ana@x.com", Password := "$2a$10$secret123" }
          dbAnaDeleted).1.2 = some gorm.uniqueEmailViolation
    ∧ (handler.CreateUser (NewUserService NewUserRepository (sampleBackend gorm.DB))
          sampleIsEmail (.ok ⟨"Eva", "ana@x.com", "secret123"⟩) dbAnaDeleted).1.status
        = StatusInternalServerError := by
  decide

/-- C3, the code at the failing input: the name, the email (held by no user of
`dbAna`) and a password of 73 characters pass validation, the hashing step fails with
`ErrPasswordTooLong`, nothing is stored, and handler `CreateUser` answers 500 "Failed
to create user". -/
theorem C3_long_password_answers_500 :
    longPassword.length = 73
    ∧ validateCreate sampleIsEmail ⟨"Eva", "eva@x.com", longPassword⟩ = []
    ∧ (NewUserRepository.FindByEmail "eva@x.com" dbAna).1 = .error .ErrRecordNotFound
    ∧ (bcrypt.GenerateFromPassword (sampleBackend gorm.DB) longPassword
          bcrypt.DefaultCost dbAna).1 = .error .ErrPasswordTooLong
    ∧ handler.CreateUser sampleService sampleIsEmail
          (.ok ⟨"Eva", "eva@x.com", longPassword⟩) dbAna
        = (⟨StatusInternalServerError, errorBody "Failed to create user"⟩, dbAna) := by
  decide

/-- C4. The body of a success response that carries a user (create, get by id, list,
update) is the marshalled user, has no member named `password`, and is the same for
any two service results that differ only in `Password`; marshalling itself ignores
`Password`. -/
theorem C4_password_not_in_response (h1 h2 : UserService σ) (isEmail : String → Bool)
    (s1 s2 : σ) :
    (∀ (u : User) (p : String), marshalUser { u with Password := p } = marshalUser u)
    ∧ (∀ i u v, validateCreate isEmail i = [] →
        (h1.CreateUser i.Name i.Email i.Password s1).1 = .ok u →
        (h2.CreateUser i.Name i.Email i.Password s2).1 = .ok v → samePublic u v →
        (handler.CreateUser h1 isEmail (.ok i) s1).1 = ⟨StatusCreated, .obj (marshalUser u)⟩
        ∧ (handler.CreateUser h1 isEmail (.ok i) s1).1
            = (handler.CreateUser h2 isEmail (.ok i) s2).1
        ∧ noPasswordKey (handler.CreateUser h1 isEmail (.ok i) s1).1.body)
    ∧ (∀ idParam id u v, strconv.ParseUint idParam 10 32 = .ok id →
        (h1.GetUserByID id s1).1 = .ok u → (h2.GetUserByID id s2).1 = .ok v →
        samePublic u v →
        (handler.GetUserByID h1 idParam s1).1 = ⟨StatusOK, .obj (marshalUser u)⟩
        ∧ (handler.GetUserByID h1 idParam s1).1 = (handler.GetUserByID h2 idParam s2).1
        ∧ noPasswordKey (handler.GetUserByID h1 idParam s1).1.body)
    ∧ (∀ us vs, (h1.GetAllUsers s1).1 = .ok us → (h2.GetAllUsers s2).1 = .ok vs →
        List.Forall₂ samePublic us vs →
        (handler.GetAllUsers h1 s1).1 = ⟨StatusOK, .arr (us.map marshalUser)⟩
        ∧ (handler.GetAllUsers h1 s1).1 = (handler.GetAllUsers h2 s2).1
        ∧ noPasswordKey (handler.GetAllUsers h1 s1).1.body)
    ∧ (∀ idParam id i u v, strconv.ParseUint idParam 10 32 = .ok id →
        validateUpdate i = [] →
        (h1.UpdateUser id i.Name s1).1 = .ok u → (h2.UpdateUser id i.Name s2).1 = .ok v →
        samePublic u v →
        (handler.UpdateUser h1 idParam (.ok i) s1).1 = ⟨StatusOK, .obj (marshalUser u)⟩
        ∧ (handler.UpdateUser h1 idParam (.ok i) s1).1
            = (handler.UpdateUser h2 idParam (.ok i) s2).1
        ∧ noPasswordKey (handler.UpdateUser h1 idParam (.ok i) s1).1.body) := by
  refine ⟨fun u p => rfl, ?_, ?_, ?_, ?_⟩
  · intro i u v hv hu hw hp
    have e1 : (handler.CreateUser h1 isEmail (.ok i) s1).1
        = ⟨StatusCreated, .obj (marshalUser u)⟩ := by
      obtain ⟨t, hc⟩ := exists_snd_of_fst hu
      simp [handler.CreateUser, ShouldBindJSON, hv, hc]
    have e2 : (handler.CreateUser h2 isEmail (.ok i) s2).1
        = ⟨StatusCreated, .obj (marshalUser v)⟩ := by
      obtain ⟨t, hc⟩ := exists_snd_of_fst hw
      simp [handler.CreateUser, ShouldBindJSON, hv, hc]
    refine ⟨e1, ?_, ?_⟩
    · rw [e1, e2, marshalUser_samePublic hp]
    · rw [e1]
      exact noPasswordKey_user u
  · intro idParam id u v hid hu hw hp
    have e1 : (handler.GetUserByID h1 idParam s1).1 = ⟨StatusOK, .obj (marshalUser u)⟩ := by
      obtain ⟨t, hc⟩ := exists_snd_of_fst hu
      simp [handler.GetUserByID, hid, hc]
    have e2 : (handler.GetUserByID h2 idParam s2).1 = ⟨StatusOK, .obj (marshalUser v)⟩ := by
      obtain ⟨t, hc⟩ := exists_snd_of_fst hw
      simp [handler.GetUserByID, hid, hc]
    refine ⟨e1, ?_, ?_⟩
    · rw [e1, e2, marshalUser_samePublic hp]
    · rw [e1]
      exact noPasswordKey_user u
  · intro us vs hu hw hp
    have e1 : (handler.GetAllUsers h1 s1).1 = ⟨StatusOK, .arr (us.map marshalUser)⟩ := by
      obtain ⟨t, hc⟩ := exists_snd_of_fst hu
      simp [handler.GetAllUsers, hc]
    have e2 : (handler.GetAllUsers h2 s2).1 = ⟨StatusOK, .arr (vs.map marshalUser)⟩ := by
      obtain ⟨t, hc⟩ := exists_snd_of_fst hw
      simp [handler.GetAllUsers, hc]
    refine ⟨e1, ?_, ?_⟩
    · rw [e1, e2, marshalUsers_samePublic hp]
    · rw [e1]
      exact noPasswordKey_users us
  · intro idParam id i u v hid hv hu hw hp
    have e1 : (handler.UpdateUser h1 idParam (.ok i) s1).1
        = ⟨StatusOK, .obj (marshalUser u)⟩ := by
      obtain ⟨t, hc⟩ := exists_snd_of_fst hu
      simp [handler.UpdateUser, ShouldBindJSON, hid, hv, hc]
    have e2 : (handler.UpdateUser h2 idParam (.ok i) s2).1
        = ⟨StatusOK, .obj (marshalUser v)⟩ := by
      obtain ⟨t, hc⟩ := exists_snd_of_fst hw
      simp [handler.UpdateUser, ShouldBindJSON, hid, hv, hc]
    refine ⟨e1, ?_, ?_⟩
    · rw [e1, e2, marshalUser_samePublic hp]
    · rw [e1]
      exact noPasswordKey_user u

/-- Witness of C4: two stores and two salts that differ only in password hashes. -/
theorem C4_password_not_in_response_witness :
    (handler.CreateUser sampleService sampleIsEmail
        (.ok ⟨"Eva", "eva@x.com", "secret123"⟩) dbAna).1
      = (handler.CreateUser otherService sampleIsEmail
        (.ok ⟨"Eva", "eva@x.com", "secret123"⟩) dbAnaRehashed).1
    ∧ (handler.GetUserByID sampleService "1" dbAna).1
      = (handler.GetUserByID otherService "1" dbAnaRehashed).1
    ∧ (handler.GetAllUsers sampleService dbAna).1
      = (handler.GetAllUsers otherService dbAnaRehashed).1
    ∧ (handler.UpdateUser sampleService "1" (.ok ⟨"Ann"⟩) dbAna).1
      = (handler.UpdateUser otherService "1" (.ok ⟨"Ann"⟩) dbAnaRehashed).1
    ∧ noPasswordKey (handler.GetUserByID sampleService "1" dbAna).1.body :=
  have T := C4_password_not_in_response sampleService otherService sampleIsEmail
    dbAna dbAnaRehashed
  ⟨(T.2.1 ⟨"Eva", "eva@x.com", "secret123"⟩ eva evaRehashed (by decide) (by decide)
      (by decide) ⟨rfl, rfl, rfl⟩).2.1,
   (T.2.2.1 "1" 1 ana anaRehashed (by decide) (by decide) (by decide) ⟨rfl, rfl, rfl⟩).2.1,
   (T.2.2.2.1 [ana] [anaRehashed] (by decide) (by decide)
      (List.Forall₂.cons ⟨rfl, rfl, rfl⟩ List.Forall₂.nil)).2.1,
   (T.2.2.2.2 "1" 1 ⟨"Ann"⟩
      { ana with Name := "Ann", Model := { ana.Model with UpdatedAt := 5 } }
      { anaRehashed with Name := "Ann", Model := { ana.Model with UpdatedAt := 5 } }
      (by decide) (by decide) (by decide) (by decide) ⟨rfl, rfl, rfl⟩).2.1,
   (T.2.2.1 "1" 1 ana anaRehashed (by decide) (by decide) (by decide) ⟨rfl, rfl, rfl⟩).2.2⟩

/-- C5. For a path id that is not a base-10 unsigned integer in `0..2^32-1`, handlers
`GetUserByID`, `UpdateUser` (whatever the body) and `DeleteUser` answer 400 "Invalid
user ID" and call no service method; for a path id that is one, `GetUserByID` and
`DeleteUser` make exactly one service call, with its numeric value, and so does
`UpdateUser` when the body binds (it makes no call when the body does not). -/
theorem C5_path_id (h : UserService σ) (idParam : String) (s : σ) :
    (¬ IsUint32Decimal idParam →
      handler.GetUserByID h.traced idParam (s, [])
          = (⟨StatusBadRequest, errorBody "Invalid user ID"⟩, (s, []))
      ∧ (∀ body, handler.UpdateUser h.traced idParam body (s, [])
          = (⟨StatusBadRequest, errorBody "Invalid user ID"⟩, (s, [])))
      ∧ handler.DeleteUser h.traced idParam (s, [])
          = (⟨StatusBadRequest, errorBody "Invalid user ID"⟩, (s, [])))
    ∧ (IsUint32Decimal idParam →
      (handler.GetUserByID h.traced idParam (s, [])).2.2
          = [SvcCall.GetUserByID (decimalValue idParam.toList)]
      ∧ (∀ body i, ShouldBindJSON validateUpdate body = .ok i →
          (handler.UpdateUser h.traced idParam body (s, [])).2.2
            = [SvcCall.UpdateUser (decimalValue idParam.toList) i.Name])
      ∧ (∀ body msg, ShouldBindJSON validateUpdate body = .error msg →
          (handler.UpdateUser h.traced idParam body (s, [])).2.2 = [])
      ∧ (handler.DeleteUser h.traced idParam (s, [])).2.2
          = [SvcCall.DeleteUser (decimalValue idParam.toList)]) := by
  constructor
  · intro hbad
    obtain ⟨e, he⟩ := (ParseUint_error_iff idParam).2 hbad
    refine ⟨?_, ?_, ?_⟩
    · simp [handler.GetUserByID, he]
    · intro body
      simp [handler.UpdateUser, he]
    · simp [handler.DeleteUser, he]
  · intro hgood
    have hp := (ParseUint_ok_iff idParam _).2 ⟨hgood, rfl⟩
    refine ⟨?_, ?_, ?_, ?_⟩
    · simp only [handler.GetUserByID, hp, UserService.traced, logged]
      cases h.GetUserByID (decimalValue idParam.toList) s with
      | mk r t => cases r <;> simp
    · intro body i hb
      simp only [handler.UpdateUser, hp, hb, UserService.traced, logged]
      cases h.UpdateUser (decimalValue idParam.toList) i.Name s with
      | mk r t => cases r <;> simp
    · intro body msg hb
      simp only [handler.UpdateUser, hp, hb]
    · simp only [handler.DeleteUser, hp, UserService.traced, logged]
      cases h.DeleteUser (decimalValue idParam.toList) s with
      | mk r t => cases r <;> simp

/-- Witness of C5: the ids "4294967296" (too large) and "42". -/
theorem C5_path_id_witness :
    (handler.GetUserByID sampleService.traced "4294967296" (dbAna, [])
          = (⟨StatusBadRequest, errorBody "Invalid user ID"⟩, (dbAna, []))
      ∧ (∀ body, handler.UpdateUser sampleService.traced "4294967296" body (dbAna, [])
          = (⟨StatusBadRequest, errorBody "Invalid user ID"⟩, (dbAna, [])))
      ∧ handler.DeleteUser sampleService.traced "4294967296" (dbAna, [])
          = (⟨StatusBadRequest, errorBody "Invalid user ID"⟩, (dbAna, [])))
    ∧ (handler.GetUserByID sampleService.traced "42" (dbAna, [])).2.2
          = [SvcCall.GetUserByID (decimalValue "42".toList)]
    ∧ (handler.DeleteUser sampleService.traced "42" (dbAna, [])).2.2
          = [SvcCall.DeleteUser (decimalValue "42".toList)] :=
  have hbad : ¬ IsUint32Decimal "4294967296" := by
    unfold IsUint32Decimal
    decide
  have hgood : IsUint32Decimal "42" := by
    unfold IsUint32Decimal
    decide
  ⟨(C5_path_id sampleService "4294967296" dbAna).1 hbad,
   ((C5_path_id sampleService "42" dbAna).2 hgood).1,
   ((C5_path_id sampleService "42" dbAna).2 hgood).2.2.2⟩

/-- C6 (as the code has it). If `FindByID(id)` fails, service `UpdateUser` returns
that error and makes no other call.  Otherwise the entity passed to `Update` is the
one `FindByID` returned with only the name replaced by the supplied one, and the
caller gets the entity as `Update` leaves it (or the error of `Update`).  With the
gorm-backed repository the returned entity has the id, email, password hash,
`CreatedAt` and `DeletedAt` of the one found and the supplied name, and its
`UpdatedAt` is the time of the update. -/
theorem C6_update_frame (repo : UserRepository σ) (id : Nat) (name : String) (s : σ) :
    (∀ e s1, repo.FindByID id s = (.error e, s1) →
        userService.UpdateUser repo.traced id name (s, [])
          = (.error e, (s1, [RepoCall.FindByID id])))
    ∧ (∀ u s1, repo.FindByID id s = (.ok u, s1) →
        (userService.UpdateUser repo.traced id name (s, [])).2.2
          = [RepoCall.FindByID id, RepoCall.Update { u with Name := name }]
        ∧ (userService.UpdateUser repo id name s).1
          = (match (repo.Update { u with Name := name } s1).1 with
              | (v, none) => .ok v
              | (_, some err) => .error err))
    ∧ (∀ (db : gorm.DB) (v : User),
        (userService.UpdateUser NewUserRepository id name db).1 = .ok v →
        ∃ u, (NewUserRepository.FindByID id db).1 = .ok u
          ∧ v = { u with Name := name, Model := { u.Model with UpdatedAt := db.now } }) := by
  refine ⟨?_, ?_, ?_⟩
  · intro e s1 hf
    simp [userService.UpdateUser, UserRepository.traced, logged, hf]
  · intro u s1 hf
    constructor
    · simp only [userService.UpdateUser, UserRepository.traced, logged, hf]
      rcases hu : repo.Update { u with Name := name } s1 with ⟨⟨v, oe⟩, t⟩
      cases oe <;> simp
    · simp only [userService.UpdateUser, hf]
      rcases hu : repo.Update { u with Name := name } s1 with ⟨⟨v, oe⟩, t⟩
      cases oe <;> simp
  · intro db v hv
    unfold userService.UpdateUser at hv
    rcases hf : NewUserRepository.FindByID id db with ⟨r, t⟩
    cases r with
    | error e => simp [hf] at hv
    | ok u =>
      refine ⟨u, rfl, ?_⟩
      have hfo := First_ok (show gorm.First (fun r => r.Model.ID == id) db = (.ok u, t)
        from hf)
      obtain ⟨hmem, -, hlv, ht⟩ := hfo
      subst ht
      simp only [hf] at hv
      rcases hu : NewUserRepository.Update { u with Name := name } t with ⟨⟨w, oe⟩, t2⟩
      rw [hu] at hv
      cases oe with
      | some err => simp at hv
      | none =>
        simp only [Except.ok.injEq] at hv
        subst hv
        have hs : (gorm.Save { u with Name := name } t).1 = (w, none) := by
          have : gorm.Save { u with Name := name } t = ((w, none), t2) := hu
          rw [this]
        exact @Save_ok { u with Name := name } w t ⟨u, hmem, rfl, hlv, rfl⟩ hs

/-- Witness of C6: renaming Ana in `dbAna`, and a lookup of the missing id 7. -/
theorem C6_update_frame_witness :
    userService.UpdateUser NewUserRepository.traced 7 "Ann" (dbAna, [])
        = (.error .ErrRecordNotFound, (dbAna, [RepoCall.FindByID 7]))
    ∧ ((userService.UpdateUser NewUserRepository.traced 1 "Ann" (dbAna, [])).2.2
          = [RepoCall.FindByID 1, RepoCall.Update { ana with Name := "Ann" }]
        ∧ (userService.UpdateUser NewUserRepository 1 "Ann" dbAna).1
          = (match (NewUserRepository.Update { ana with Name := "Ann" } dbAna).1 with
              | (v, none) => .ok v
              | (_, some err) => .error err))
    ∧ (∃ u, (NewUserRepository.FindByID 1 dbAna).1 = .ok u
        ∧ ({ ana with Name := "Ann", Model := { ana.Model with UpdatedAt := 5 } } : User)
          = { u with Name := "Ann", Model := { u.Model with UpdatedAt := dbAna.now } }) :=
  ⟨(C6_update_frame NewUserRepository 7 "Ann" dbAna).1 .ErrRecordNotFound dbAna
      (by decide),
   (C6_update_frame NewUserRepository 1 "Ann" dbAna).2.1 ana dbAna (by decide),
   (C6_update_frame NewUserRepository 1 "Ann" dbAna).2.2 dbAna
      { ana with Name := "Ann", Model := { ana.Model with UpdatedAt := 5 } } (by decide)⟩

/-- Counterexample to C6 as stated: renaming Ana in `dbAna` at time 5 returns an
entity whose `UpdatedAt` is 5, while the entity `FindByID` returned has 1. -/
theorem C6_counterexample :
    (NewUserRepository.FindByID 1 dbAna).1 = .ok ana
    ∧ (userService.UpdateUser NewUserRepository 1 "Ann" dbAna).1
        = .ok { ana with Name := "Ann", Model := { ana.Model with UpdatedAt := 5 } }
    ∧ ana.Model.UpdatedAt = 1
    ∧ ¬ (∃ v, (userService.UpdateUser NewUserRepository 1 "Ann" dbAna).1 = .ok v
          ∧ v.Model.UpdatedAt = ana.Model.UpdatedAt) := by
  refine ⟨by decide, by decide, by decide, ?_⟩
  rintro ⟨v, hv, hu⟩
  have h2 : (userService.UpdateUser NewUserRepository 1 "Ann" dbAna).1
      = .ok { ana with Name := "Ann", Model := { ana.Model with UpdatedAt := 5 } } := by
    decide
  rw [h2] at hv
  simp only [Except.ok.injEq] at hv
  subst hv
  exact absurd hu (by decide)

/-- C7, the code at the failing inputs: id 999 matches no row of `dbAna` and id 1
only a soft-deleted row of `dbAnaDeleted`; in both cases repository `Delete` returns
no error, the table is left as it was, and handler `DeleteUser` answers 200 "User
deleted successfully". -/
theorem C7_delete_missing_answers_200 :
    (NewUserRepository.FindByID 999 dbAna).1 = .error .ErrRecordNotFound
    ∧ NewUserRepository.Delete 999 dbAna = (none, dbAna)
    ∧ handler.DeleteUser sampleService "999" dbAna
        = (⟨StatusOK, messageBody "User deleted successfully"⟩, dbAna)
    ∧ (NewUserRepository.FindByID 1 dbAnaDeleted).1 = .error .ErrRecordNotFound
    ∧ NewUserRepository.Delete 1 dbAnaDeleted = (none, dbAnaDeleted)
    ∧ handler.DeleteUser sampleService "1" dbAnaDeleted
        = (⟨StatusOK, messageBody "User deleted successfully"⟩, dbAnaDeleted) := by
  decide

/-- C8. The response of a handler to a service failure does not depend on the error.
Take any two services, each in its own world.  For `CreateUser`, if on the bound
input the one fails with `e1` and the other with `e2`, both not `ErrEmailExists`,
status and body are the same.  For `GetAllUsers`, and for `GetUserByID`,
`UpdateUser` and `DeleteUser` at the id parsed from the path (and the name bound from
the body), if the one fails with any error and the other with any error, status and
body are the same. -/
theorem C8_error_content_not_leaked {τ : Type} (h1 : UserService σ) (h2 : UserService τ)
    (isEmail : String → Bool) (s1 : σ) (s2 : τ) (e1 e2 : GoError)
    (hne1 : errorsIs e1 ErrEmailExists = false)
    (hne2 : errorsIs e2 ErrEmailExists = false) :
    (∀ body : Decoded CreateUserInput,
        (∀ i, ShouldBindJSON (validateCreate isEmail) body = .ok i →
          (h1.CreateUser i.Name i.Email i.Password s1).1 = .error e1) →
        (∀ i, ShouldBindJSON (validateCreate isEmail) body = .ok i →
          (h2.CreateUser i.Name i.Email i.Password s2).1 = .error e2) →
        (handler.CreateUser h1 isEmail body s1).1 = (handler.CreateUser h2 isEmail body s2).1)
    ∧ (∀ e e0, (h1.GetAllUsers s1).1 = .error e → (h2.GetAllUsers s2).1 = .error e0 →
        (handler.GetAllUsers h1 s1).1 = (handler.GetAllUsers h2 s2).1)
    ∧ (∀ idParam e e0,
        (∀ id, strconv.ParseUint idParam 10 32 = .ok id →
          (h1.GetUserByID id s1).1 = .error e) →
        (∀ id, strconv.ParseUint idParam 10 32 = .ok id →
          (h2.GetUserByID id s2).1 = .error e0) →
        (handler.GetUserByID h1 idParam s1).1 = (handler.GetUserByID h2 idParam s2).1)
    ∧ (∀ idParam body e e0,
        (∀ id i, strconv.ParseUint idParam 10 32 = .ok id →
          ShouldBindJSON validateUpdate body = .ok i →
          (h1.UpdateUser id i.Name s1).1 = .error e) →
        (∀ id i, strconv.ParseUint idParam 10 32 = .ok id →
          ShouldBindJSON validateUpdate body = .ok i →
          (h2.UpdateUser id i.Name s2).1 = .error e0) →
        (handler.UpdateUser h1 idParam body s1).1
          = (handler.UpdateUser h2 idParam body s2).1)
    ∧ (∀ idParam e e0,
        (∀ id, strconv.ParseUint idParam 10 32 = .ok id →
          (h1.DeleteUser id s1).1 = some e) →
        (∀ id, strconv.ParseUint idParam 10 32 = .ok id →
          (h2.DeleteUser id s2).1 = some e0) →
        (handler.DeleteUser h1 idParam s1).1 = (handler.DeleteUser h2 idParam s2).1) := by
  refine ⟨?_, ?_, ?_, ?_, ?_⟩
  · intro body hb1 hb2
    unfold handler.CreateUser
    cases hbind : ShouldBindJSON (validateCreate isEmail) body with
    | error err => rfl
    | ok input =>
      obtain ⟨t1, hc1⟩ := exists_snd_of_fst (hb1 input hbind)
      obtain ⟨t2, hc2⟩ := exists_snd_of_fst (hb2 input hbind)
      simp [hc1, hc2, hne1, hne2]
  · intro e e0 r1 r2
    obtain ⟨t1, hc1⟩ := exists_snd_of_fst r1
    obtain ⟨t2, hc2⟩ := exists_snd_of_fst r2
    simp [handler.GetAllUsers, hc1, hc2]
  · intro idParam e e0 r1 r2
    unfold handler.GetUserByID
    cases hp : strconv.ParseUint idParam 10 32 with
    | error x => rfl
    | ok id =>
      obtain ⟨t1, hc1⟩ := exists_snd_of_fst (r1 id hp)
      obtain ⟨t2, hc2⟩ := exists_snd_of_fst (r2 id hp)
      simp [hc1, hc2]
  · intro idParam body e e0 r1 r2
    unfold handler.UpdateUser
    cases hp : strconv.ParseUint idParam 10 32 with
    | error x => rfl
    | ok id =>
      cases hb : ShouldBindJSON validateUpdate body with
      | error err => rfl
      | ok input =>
        obtain ⟨t1, hc1⟩ := exists_snd_of_fst (r1 id input hp hb)
        obtain ⟨t2, hc2⟩ := exists_snd_of_fst (r2 id input hp hb)
        simp [hc1, hc2]
  · intro idParam e e0 r1 r2
    unfold handler.DeleteUser
    cases hp : strconv.ParseUint idParam 10 32 with
    | error x => rfl
    | ok id =>
      obtain ⟨t1, hc1⟩ := exists_snd_of_fst (r1 id hp)
      obtain ⟨t2, hc2⟩ := exists_snd_of_fst (r2 id hp)
      simp [hc1, hc2]

/-- Witness of C8.  The gorm-backed service on `dbAnaDeleted` fails only at some
inputs (the create of Ana's held email with the unique-constraint violation, the
lookup and the update of the missing id 7 with `ErrRecordNotFound`; id 1 of `dbAna`
it serves), and there it answers as the service over a store that refuses the
connection does.  For `GetAllUsers` and `DeleteUser`, where the gorm-backed service
does not fail, a refused connection and a full disk give the same responses. -/
theorem C8_error_content_not_leaked_witness :
    (handler.CreateUser sampleService sampleIsEmail
        (.ok ⟨"Eva", "ana@x.com", "secret123"⟩) dbAnaDeleted).1
      = (handler.CreateUser (downService connRefused) sampleIsEmail
        (.ok ⟨"Eva", "ana@x.com", "secret123"⟩) ()).1
    ∧ (handler.GetUserByID sampleService "7" dbAnaDeleted).1
      = (handler.GetUserByID (downService connRefused) "7" ()).1
    ∧ (handler.UpdateUser sampleService "7" (.ok ⟨"Eva"⟩) dbAnaDeleted).1
      = (handler.UpdateUser (downService connRefused) "7" (.ok ⟨"Eva"⟩) ()).1
    ∧ (handler.GetAllUsers (downService connRefused) ()).1
      = (handler.GetAllUsers (downService diskFull) ()).1
    ∧ (handler.DeleteUser (downService connRefused) "7" ()).1
      = (handler.DeleteUser (downService diskFull) "7" ()).1
    ∧ (sampleService.GetUserByID 1 dbAna).1 = .ok ana :=
  have T := C8_error_content_not_leaked sampleService (downService connRefused)
    sampleIsEmail dbAnaDeleted () gorm.uniqueEmailViolation connRefused
    (by decide) (by decide)
  have U := C8_error_content_not_leaked (downService connRefused) (downService diskFull)
    sampleIsEmail () () connRefused diskFull (by decide) (by decide)
  have hbc : ShouldBindJSON (validateCreate sampleIsEmail)
      (.ok ⟨"Eva", "ana@x.com", "secret123"⟩) = .ok ⟨"Eva", "ana@x.com", "secret123"⟩ := by
    decide
  have hbu : ShouldBindJSON validateUpdate (.ok ⟨"Eva"⟩) = .ok ⟨"Eva"⟩ := by decide
  have hp7 : strconv.ParseUint "7" 10 32 = .ok 7 := by decide
  ⟨T.1 (.ok ⟨"Eva", "ana@x.com", "secret123"⟩)
      (fun i hi => by
        rw [hbc] at hi
        injection hi with hi
        subst hi
        decide)
      (fun _ _ => rfl),
   T.2.2.1 "7" .ErrRecordNotFound connRefused
      (fun id hid => by
        rw [hp7] at hid
        injection hid with hid
        subst hid
        decide)
      (fun _ _ => rfl),
   T.2.2.2.1 "7" (.ok ⟨"Eva"⟩) .ErrRecordNotFound connRefused
      (fun id i hid hi => by
        rw [hp7] at hid
        rw [hbu] at hi
        injection hid with hid
        injection hi with hi
        subst hid
        subst hi
        decide)
      (fun _ _ _ _ => rfl),
   U.2.1 connRefused diskFull rfl rfl,
   U.2.2.2.2 "7" connRefused diskFull (fun _ _ => rfl) (fun _ _ => rfl),
   by decide⟩

/-- C9 (as the code has it). When the service fails with an unclassified error,
handler `CreateUser` (for a body that binds) and handler `GetAllUsers` answer 500;
handlers `GetUserByID`, `UpdateUser` and `DeleteUser` answer 404 to every service
failure, whatever the error. -/
theorem C9_failure_status (h : UserService σ) (isEmail : String → Bool) (s : σ)
    (e : GoError) (hun : unclassified e) :
    (∀ i, validateCreate isEmail i = [] →
        (h.CreateUser i.Name i.Email i.Password s).1 = .error e →
        (handler.CreateUser h isEmail (.ok i) s).1
          = ⟨StatusInternalServerError, errorBody "Failed to create user"⟩)
    ∧ ((h.GetAllUsers s).1 = .error e →
        (handler.GetAllUsers h s).1
          = ⟨StatusInternalServerError, errorBody "Failed to retrieve users"⟩)
    ∧ (∀ idParam id e0, strconv.ParseUint idParam 10 32 = .ok id →
        (h.GetUserByID id s).1 = .error e0 →
        (handler.GetUserByID h idParam s).1 = ⟨StatusNotFound, errorBody "User not found"⟩)
    ∧ (∀ idParam id i e0, strconv.ParseUint idParam 10 32 = .ok id →
        validateUpdate i = [] →
        (h.UpdateUser id i.Name s).1 = .error e0 →
        (handler.UpdateUser h idParam (.ok i) s).1
          = ⟨StatusNotFound, errorBody "User not found or failed to update"⟩)
    ∧ (∀ idParam id e0, strconv.ParseUint idParam 10 32 = .ok id →
        (h.DeleteUser id s).1 = some e0 →
        (handler.DeleteUser h idParam s).1
          = ⟨StatusNotFound, errorBody "User not found or failed to delete"⟩) := by
  refine ⟨?_, ?_, ?_, ?_, ?_⟩
  · intro i hv he
    rcases hc : h.CreateUser i.Name i.Email i.Password s with ⟨x, t⟩
    rw [hc] at he
    simp only at he
    subst he
    have hee : errorsIs e ErrEmailExists = false := hun.1
    simp [handler.CreateUser, ShouldBindJSON, hv, hc, hee]
  · intro he
    rcases hc : h.GetAllUsers s with ⟨x, t⟩
    rw [hc] at he
    simp only at he
    subst he
    simp [handler.GetAllUsers, hc]
  · intro idParam id e0 hp he
    rcases hc : h.GetUserByID id s with ⟨x, t⟩
    rw [hc] at he
    simp only at he
    subst he
    simp [handler.GetUserByID, hp, hc]
  · intro idParam id i e0 hp hv he
    rcases hc : h.UpdateUser id i.Name s with ⟨x, t⟩
    rw [hc] at he
    simp only at he
    subst he
    simp [handler.UpdateUser, ShouldBindJSON, hp, hv, hc]
  · intro idParam id e0 hp he
    rcases hc : h.DeleteUser id s with ⟨x, t⟩
    rw [hc] at he
    simp only at he
    subst he
    simp [handler.DeleteUser, hp, hc]

/-- Witness of C9: the store refuses the connection. -/
theorem C9_failure_status_witness :
    (handler.CreateUser (downService connRefused) sampleIsEmail
        (.ok ⟨"Eva", "eva@x.com", "secret123"⟩) ()).1
      = ⟨StatusInternalServerError, errorBody "Failed to create user"⟩
    ∧ (handler.GetAllUsers (downService connRefused) ()).1
      = ⟨StatusInternalServerError, errorBody "Failed to retrieve users"⟩
    ∧ (handler.GetUserByID (downService connRefused) "7" ()).1
      = ⟨StatusNotFound, errorBody "User not found"⟩
    ∧ (handler.UpdateUser (downService connRefused) "7" (.ok ⟨"Eva"⟩) ()).1
      = ⟨StatusNotFound, errorBody "User not found or failed to update"⟩
    ∧ (handler.DeleteUser (downService connRefused) "7" ()).1
      = ⟨StatusNotFound, errorBody "User not found or failed to delete"⟩ :=
  have T := C9_failure_status (downService connRefused) sampleIsEmail () connRefused
    ⟨by decide, by decide⟩
  ⟨T.1 ⟨"Eva", "eva@x.com", "secret123"⟩ (by decide) rfl,
   T.2.1 rfl,
   T.2.2.1 "7" 7 connRefused (by decide) rfl,
   T.2.2.2.1 "7" 7 ⟨"Eva"⟩ connRefused (by decide) (by decide) rfl,
   T.2.2.2.2 "7" 7 connRefused (by decide) rfl⟩

/-- Counterexample to C9 as stated: with the store refusing connections, an error
that is neither sentinel, handlers `GetUserByID`, `UpdateUser` and `DeleteUser`
answer 404, not 500. -/
theorem C9_counterexample :
    unclassified connRefused
    ∧ (userService.GetUserByID (repositories.unreachable connRefused) 7 ()).1
        = .error connRefused
    ∧ (handler.GetUserByID (downService connRefused) "7" ()).1.status = StatusNotFound
    ∧ (handler.UpdateUser (downService connRefused) "7" (.ok ⟨"Eva"⟩) ()).1.status
        = StatusNotFound
    ∧ (handler.DeleteUser (downService connRefused) "7" ()).1.status = StatusNotFound
    ∧ StatusNotFound ≠ StatusInternalServerError :=
  ⟨⟨by decide, by decide⟩, by decide, by decide, by decide, by decide, by decide⟩

/-- C10. A create body with an empty (or missing) name, an empty (or missing) email,
an email without the address syntax, or a password of fewer than 8 characters, a
body that does not decode, and an update body with an empty (or missing) name are
answered 400 without a call of the service; a create body whose other fields are
valid and whose password has exactly 8 characters passes validation and reaches the
service. -/
theorem C10_invalid_body_rejected (h : UserService σ) (isEmail : String → Bool) (s : σ) :
    (∀ i : CreateUserInput,
        (i.Name = "" ∨ i.Email = "" ∨ isEmail i.Email = false ∨ i.Password.length < 8) →
        ∃ msg, handler.CreateUser h.traced isEmail (.ok i) (s, [])
          = (⟨StatusBadRequest, errorBody msg⟩, (s, [])))
    ∧ (∀ msg, handler.CreateUser h.traced isEmail (.error msg) (s, [])
          = (⟨StatusBadRequest, errorBody msg⟩, (s, [])))
    ∧ (∀ idParam (i : UpdateUserInput), i.Name = "" →
        ∃ msg, handler.UpdateUser h.traced idParam (.ok i) (s, [])
          = (⟨StatusBadRequest, errorBody msg⟩, (s, [])))
    ∧ (∀ idParam msg, ∃ msg0, handler.UpdateUser h.traced idParam (.error msg) (s, [])
          = (⟨StatusBadRequest, errorBody msg0⟩, (s, [])))
    ∧ (∀ i : CreateUserInput, i.Name ≠ "" → i.Email ≠ "" → isEmail i.Email = true →
        i.Password.length = 8 →
        validateCreate isEmail i = []
        ∧ (handler.CreateUser h.traced isEmail (.ok i) (s, [])).2.2
            = [SvcCall.CreateUser i.Name i.Email i.Password]) := by
  refine ⟨?_, ?_, ?_, ?_, ?_⟩
  · intro i hbad
    have hv : validateCreate isEmail i ≠ [] := by
      rw [Ne, validateCreate_eq_nil_iff]
      rintro ⟨hn, he, hs, hl⟩
      rcases hbad with hb | hb | hb | hb
      · exact hn hb
      · exact he hb
      · rw [hs] at hb
        exact Bool.noConfusion hb
      · omega
    obtain ⟨msg, hm⟩ := ShouldBindJSON_invalid (validateCreate isEmail) i hv
    exact ⟨msg, by simp [handler.CreateUser, hm]⟩
  · intro msg
    simp [handler.CreateUser, ShouldBindJSON]
  · intro idParam i hn
    have hv : validateUpdate i ≠ [] := by
      rw [Ne, validateUpdate_eq_nil_iff]
      exact fun hne => hne hn
    obtain ⟨msg, hm⟩ := ShouldBindJSON_invalid validateUpdate i hv
    unfold handler.UpdateUser
    cases strconv.ParseUint idParam 10 32 with
    | error e => exact ⟨_, rfl⟩
    | ok id => exact ⟨msg, by simp [hm]⟩
  · intro idParam msg
    unfold handler.UpdateUser
    cases strconv.ParseUint idParam 10 32 with
    | error e => exact ⟨_, rfl⟩
    | ok id => exact ⟨msg, by simp [ShouldBindJSON]⟩
  · intro i hn he hs hl
    have hv : validateCreate isEmail i = [] :=
      (validateCreate_eq_nil_iff isEmail i).2 ⟨hn, he, hs, by omega⟩
    refine ⟨hv, ?_⟩
    simp only [handler.CreateUser, ShouldBindJSON, hv, UserService.traced, logged]
    cases h.CreateUser i.Name i.Email i.Password s with
    | mk r t =>
      cases r with
      | error err => by_cases hc : errorsIs err ErrEmailExists = true <;> simp [hc]
      | ok u => simp

/-- Witness of C10: bodies with a short password, without name, and with a password
of exactly eight characters. -/
theorem C10_invalid_body_rejected_witness :
    (∃ msg, handler.CreateUser sampleService.traced sampleIsEmail
        (.ok ⟨"Eva", "eva@x.com", "secret1"⟩) (dbAna, [])
          = (⟨StatusBadRequest, errorBody msg⟩, (dbAna, [])))
    ∧ (∃ msg, handler.UpdateUser sampleService.traced "1" (.ok ⟨""⟩) (dbAna, [])
          = (⟨StatusBadRequest, errorBody msg⟩, (dbAna, [])))
    ∧ (validateCreate sampleIsEmail ⟨"Eva", "eva@x.com", "secret12"⟩ = []
        ∧ (handler.CreateUser sampleService.traced sampleIsEmail
            (.ok ⟨"Eva", "eva@x.com", "secret12"⟩) (dbAna, [])).2.2
            = [SvcCall.CreateUser "Eva" "eva@x.com" "secret12"]) :=
  have T := C10_invalid_body_rejected sampleService sampleIsEmail dbAna
  ⟨T.1 ⟨"Eva", "eva@x.com", "secret1"⟩ (Or.inr (Or.inr (Or.inr (by decide)))),
   T.2.2.1 "1" ⟨""⟩ rfl,
   T.2.2.2.2 ⟨"Eva", "eva@x.com", "secret12"⟩ (by decide) (by decide) (by decide)
      (by decide)⟩

end Theorems

end Medicore
